import Mathlib

/-!
Verification of the football-team browser (`TeamManager`, `PlayerManager`,
`UIManager`, `ApiService`) against its specification.

The JavaScript classes are shallowly embedded: the mutable fields of the
managers and the observable DOM state kept by `UIManager` form one record
`AppState`; each method becomes a state-transforming function.  The outcome
of a network fetch is passed in as an `Except Unit α` parameter (the `await`
either yields a list or throws).  A JavaScript field that may be
`undefined`/`null` is an `Option String`; an operation that can throw a
`TypeError` (reading `.toLowerCase()` of an absent field) returns `Option`.
-/

/-- Kind of a toast notification (`showNotification`'s `type` argument). -/
inductive NotifType where
  | info
  | success
  | error
  deriving DecidableEq, Repr

/-- A queued toast: message text and kind. -/
structure Notif where
  message : String
  ntype : NotifType
  deriving DecidableEq, Repr

/-- Display mode of the team list (`'grid'` / `'list'` in the source). -/
inductive ViewType where
  | grid
  | list
  deriving DecidableEq, Repr

/-- A team record as consumed by the source (`idTeam`, `strTeam`,
`strTeamBadge`, `strLeague`, `strStadium`, `strStadiumLocation`,
`intFormedYear`); every field other than `idTeam` may be absent in the
JSON payload, hence `Option`. -/
structure Team where
  idTeam : String
  strTeam : Option String
  strTeamBadge : Option String
  strLeague : Option String
  strStadium : Option String
  strStadiumLocation : Option String
  intFormedYear : Option String
  deriving DecidableEq, Repr

/-- A player record; the manager logic only inspects the list's length,
the fields are carried for faithfulness to `createPlayerCard`. -/
structure Player where
  strPlayer : Option String
  strPosition : Option String
  strNationality : Option String
  deriving DecidableEq, Repr

/-- Shape of `PlayerManager.currentTeam`: `{ name, badge, league }`. -/
structure TeamCtx where
  name : String
  badge : String
  league : String
  deriving DecidableEq, Repr

/-- The combined mutable state of `TeamManager`, `PlayerManager` and the
observable DOM state written by `UIManager`. -/
structure AppState where
  -- TeamManager fields
  teams : List Team
  filteredTeams : List Team
  currentCountry : String
  currentView : ViewType
  searchTerm : String
  -- PlayerManager fields
  currentPlayers : List Player
  currentTeam : Option TeamCtx
  -- UIManager / DOM observable state
  countrySelectValue : String
  loadingShown : Bool
  notifications : List Notif
  displayedTeams : List Team
  displayedView : ViewType
  teamsCountText : Nat
  totalTeamsText : Option Nat
  countryTitle : String
  displayedPlayers : List Player
  playersTitle : String
  teamInfoVisible : Bool
  emptyPlayersVisible : Bool
  playersSectionVisible : Bool
  viewButtons : Option ViewType
  deriving DecidableEq, Repr

/-- The state right after the constructors run (`teams = []`,
`filteredTeams = []`, `currentCountry = ''`, `currentView = 'grid'`,
`searchTerm = ''`, `currentPlayers = []`, `currentTeam = null`, empty DOM). -/
def initialState : AppState where
  teams := []
  filteredTeams := []
  currentCountry := ""
  currentView := ViewType.grid
  searchTerm := ""
  currentPlayers := []
  currentTeam := none
  countrySelectValue := ""
  loadingShown := false
  notifications := []
  displayedTeams := []
  displayedView := ViewType.grid
  teamsCountText := 0
  totalTeamsText := none
  countryTitle := ""
  displayedPlayers := []
  playersTitle := ""
  teamInfoVisible := false
  emptyPlayersVisible := false
  playersSectionVisible := false
  viewButtons := none

/-- JavaScript `String.prototype.toLowerCase()`, computed on the character
list so that concrete instances reduce. -/
def jsToLower (s : String) : String := String.mk (s.toList.map Char.toLower)

/-- JavaScript `String.prototype.trim()`: strips leading and trailing
whitespace, computed on the character list. -/
def jsTrim (s : String) : String :=
  String.mk (((s.toList.dropWhile Char.isWhitespace).reverse.dropWhile
    Char.isWhitespace).reverse)

/-- Decidable prefix test on character lists. -/
def listPre : List Char → List Char → Bool
  | [], _ => true
  | _ :: _, [] => false
  | a :: as, b :: bs => a = b && listPre as bs

/-- Decidable contiguous-sublist test on character lists. -/
def listSub (needle : List Char) : List Char → Bool
  | [] => needle.isEmpty
  | hay@(_ :: t) => listPre needle hay || listSub needle t

/-- JavaScript `hay.includes(needle)`. -/
def jsIncludes (hay needle : String) : Bool := listSub needle.toList hay.toList

/-- The normalization applied by `filterTeams`:
`searchTerm.toLowerCase().trim()`. -/
def normalizeTerm (text : String) : String := jsTrim (jsToLower text)

/-- Match on an optional, truthiness-guarded field, as in
`team.strLeague && team.strLeague.toLowerCase().includes(term)`:
an absent or empty (falsy) field never matches. -/
def optFieldMatch (term : String) (f : Option String) : Bool :=
  match f with
  | none => false
  | some v => v != "" && jsIncludes (jsToLower v) term

/-- The predicate of `TeamManager.filterTeams`'s `.filter` callback.
`team.strTeam.toLowerCase()` is read with no absence guard, so an absent
`strTeam` throws a `TypeError`, modelled as `none`; `strLeague` and
`strStadium` are truthiness-guarded. -/
def matchesOpt (term : String) (t : Team) : Option Bool :=
  match t.strTeam with
  | none => none
  | some name =>
      some (jsIncludes (jsToLower name) term
        || optFieldMatch term t.strLeague
        || optFieldMatch term t.strStadium)

/-- Total version of the filter predicate (defined on teams where the
callback does not throw). -/
def codeMatches (term : String) (t : Team) : Bool := (matchesOpt term t).getD false

/-- JavaScript `Array.prototype.filter` with a callback that may throw: the first
throwing element aborts the whole call. -/
def jsFilter {α : Type} (p : α → Option Bool) : List α → Option (List α)
  | [] => some []
  | a :: as =>
    match p a with
    | none => none
    | some b =>
      match jsFilter p as with
      | none => none
      | some rest => some (if b then a :: rest else rest)

/-- The list-level content of `TeamManager.filterTeams`: normalize the raw
text; an empty normalized term yields a copy of the full list, otherwise
the `.filter` runs (and may throw). -/
def filterCore (L : List Team) (text : String) : Option (List Team) :=
  let term := normalizeTerm text
  if term = "" then some L
  else jsFilter (matchesOpt term) L

/-- Source `UIManager.showLoading(show)`. -/
def showLoading (b : Bool) (s : AppState) : AppState := { s with loadingShown := b }

/-- Source `UIManager.showNotification(message, type)`: appends a toast. -/
def showNotification (msg : String) (t : NotifType) (s : AppState) : AppState :=
  { s with notifications := s.notifications ++ [⟨msg, t⟩] }

/-- Source `UIManager.displayTeams(teams, viewType)`: re-renders the team container. -/
def displayTeams (ts : List Team) (v : ViewType) (s : AppState) : AppState :=
  { s with displayedTeams := ts, displayedView := v }

/-- Source `UIManager.updateCounters(teamsCount, totalTeams = null)`: the total is
only written when the second argument is provided. -/
def updateCounters (c : Nat) (total : Option Nat) (s : AppState) : AppState :=
  { s with teamsCountText := c
           totalTeamsText := match total with
             | some t => some t
             | none => s.totalTeamsText }

/-- Source `UIManager.updateCountryTitle(country)`. -/
def updateCountryTitle (country : String) (s : AppState) : AppState :=
  { s with countryTitle := if country = "" then "Equipos" else "Equipos de " ++ country }

/-- Source `UIManager.hidePlayersSection()`. -/
def hidePlayersSection (s : AppState) : AppState :=
  { s with playersSectionVisible := false
           teamInfoVisible := false
           emptyPlayersVisible := false }

/-- Source `UIManager.setViewButtons(activeView)`. -/
def setViewButtons (v : ViewType) (s : AppState) : AppState :=
  { s with viewButtons := some v }

/-- Source `UIManager.displayPlayers(players, teamName, ...)`: shows the team info
header, resets the container, and either shows the empty-state indicator
(returning before the section is made visible) or renders the cards and
shows the section. -/
def displayPlayers (players : List Player) (teamName : String) (s : AppState) : AppState :=
  let s1 := { s with teamInfoVisible := true
                     playersTitle := "Plantilla: " ++ teamName
                     displayedPlayers := [] }
  if players.isEmpty then
    { s1 with emptyPlayersVisible := true }
  else
    { s1 with emptyPlayersVisible := false
              displayedPlayers := players
              playersSectionVisible := true }

/-- Source `TeamManager.loadTeams(country)`: guard on a falsy country, then
loading overlay + title, then either the success path (replace `teams`,
copy into `filteredTeams`, reset `searchTerm`, render, counters,
success toast, hide the players section) or the catch path (error toast,
render an empty list); `finally` clears the overlay.  The fetch outcome is
the `fetch` parameter; note the catch path reassigns none of the manager's
fields. -/
def loadTeams (country : String) (fetch : Except Unit (List Team)) (s : AppState) : AppState :=
  if country = "" then s
  else
    let s1 := { s with currentCountry := country }
    let s2 := updateCountryTitle country (showLoading true s1)
    let s3 := match fetch with
      | Except.ok newTeams =>
        let sA := { s2 with teams := newTeams
                            filteredTeams := newTeams
                            searchTerm := "" }
        let sB := displayTeams sA.filteredTeams sA.currentView sA
        let sC := updateCounters sA.filteredTeams.length (some newTeams.length) sB
        let sD := showNotification
          (toString newTeams.length ++ " equipos cargados de " ++ country)
          NotifType.success sC
        hidePlayersSection sD
      | Except.error _ =>
        let sA := showNotification "Error al cargar los equipos" NotifType.error s2
        displayTeams [] sA.currentView sA
    showLoading false s3

/-- Source `TeamManager.filterTeams(searchTerm)`: stores the normalized term,
recomputes `filteredTeams` (full copy on an empty term, `.filter`
otherwise), re-renders and updates the counter.  A `TypeError` thrown by
the filter callback aborts the operation (`none`). -/
def filterTeams (text : String) (s : AppState) : Option AppState :=
  match filterCore s.teams text with
  | none => none
  | some l =>
    let s1 := { s with searchTerm := normalizeTerm text
                       filteredTeams := l }
    let s2 := displayTeams l s1.currentView s1
    some (updateCounters l.length none s2)

/-- Source `TeamManager.switchView(viewType)`: assigns `currentView` first and
only re-renders (and updates the mode buttons) when the filtered list is
non-empty. -/
def switchView (v : ViewType) (s : AppState) : AppState :=
  let s1 := { s with currentView := v }
  if s1.filteredTeams.length > 0 then
    setViewButtons v (displayTeams s1.filteredTeams v s1)
  else s1

/-- Source `PlayerManager.loadPlayers(teamId, teamName, teamBadge, teamLeague)`:
guard on a falsy id, loading overlay, then the success path (replace
`currentPlayers` and `currentTeam`, render, success toast) or the catch
path (error toast, render an empty roster); `finally` clears the overlay.
The catch path reassigns neither `currentPlayers` nor `currentTeam`. -/
def loadPlayers (teamId teamName teamBadge teamLeague : String)
    (fetch : Except Unit (List Player)) (s : AppState) : AppState :=
  if teamId = "" then s
  else
    let s1 := showLoading true s
    let s2 := match fetch with
      | Except.ok players =>
        let sA := { s1 with currentPlayers := players
                            currentTeam := some ⟨teamName, teamBadge, teamLeague⟩ }
        let sB := displayPlayers players teamName sA
        showNotification (toString players.length ++ " jugadores cargados")
          NotifType.success sB
      | Except.error _ =>
        let sA := showNotification "Error al cargar los jugadores" NotifType.error s1
        displayPlayers [] teamName sA
    showLoading false s2

/-- Source `PlayerManager.hidePlayers()`: clears the roster fields and hides the
players section. -/
def hidePlayers (s : AppState) : AppState :=
  hidePlayersSection { s with currentPlayers := []
                              currentTeam := none }

/-- The matching predicate as the specification words it: the team's name,
league, or stadium LOCATION (each when present) case-insensitively contains
the trimmed, case-folded filter text.  Written from the spec's sentences for
the refinement comparison; the predicate the source actually runs is
`matchesOpt`, which reads `strStadium`, not `strStadiumLocation`. -/
def specClaimMatches (filterText : String) (t : Team) : Bool :=
  let term := normalizeTerm filterText
  optFieldMatch term t.strTeam
    || optFieldMatch term t.strLeague
    || optFieldMatch term t.strStadiumLocation

/-- The filtered-view invariant the code maintains: `filteredTeams` is the
full list when the stored search term is empty, and otherwise the
`.filter` of `teams` by the source predicate. -/
def filterInvariant (st : AppState) : Prop :=
  st.filteredTeams =
    if st.searchTerm = "" then st.teams
    else st.teams.filter (codeMatches st.searchTerm)

/-- An operation on the team view: a `loadTeams` call (with its fetch
outcome) or a `filterTeams` call. -/
inductive TMOp where
  | load (country : String) (fetch : Except Unit (List Team))
  | filt (text : String)

/-- Runs a sequence of team-view operations; `none` when some
`filterTeams` call threw. -/
def runOps : List TMOp → AppState → Option AppState
  | [], st => some st
  | TMOp.load c f :: rest, st => runOps rest (loadTeams c f st)
  | TMOp.filt t :: rest, st => (filterTeams t st).bind (runOps rest)

/-- Sample team from the Spain scenario. -/
def betis : Team :=
  ⟨"133899", some "Real Betis", none, some "Spanish La Liga",
    some "Estadio Benito Villamarin", some "Seville", none⟩

/-- Sample team from the Spain scenario; its name contains "sevilla"
case-insensitively. -/
def sevillaFC : Team :=
  ⟨"133898", some "Sevilla FC", none, some "Spanish La Liga",
    some "Estadio Ramon Sanchez Pizjuan", some "Seville", none⟩

/-- A team matching the filter text only through `strStadiumLocation`,
the field the source filter never reads. -/
def locationOnlyTeam : Team :=
  ⟨"42", some "Alpha", none, none, none, some "Sevilla", none⟩

/-- A team whose `strTeam` is absent, making the filter callback throw. -/
def namelessTeam : Team := ⟨"7", none, none, none, none, none, none⟩

/-- A sample player. -/
def demoPlayer : Player := ⟨some "Joaquin", some "Midfielder", some "Spain"⟩

/-- State after a successful load of the two Spain-scenario teams. -/
def loadedSpainState : AppState :=
  loadTeams "Spain" (Except.ok [betis, sevillaFC]) initialState

/-- State with an open roster, reached by a successful `loadPlayers`. -/
def rosterOpenState : AppState :=
  loadPlayers "134301" "Alpha FC" "badge.png" "League A"
    (Except.ok [demoPlayer]) loadedSpainState

/-- The Spain-scenario operation sequence. -/
def demoOps : List TMOp :=
  [TMOp.load "Spain" (Except.ok [betis, sevillaFC]), TMOp.filt "sevilla"]

/-- The state the Spain-scenario run ends in. -/
def demoRunState : AppState := (runOps demoOps initialState).getD initialState

theorem normalizeTerm_empty : normalizeTerm "" = "" := by decide

theorem jsFilter_eq_filter {α : Type} (p : α → Option Bool) (L : List α) :
    ∀ l, jsFilter p L = some l → l = L.filter (fun a => (p a).getD false) := by
  induction L with
  | nil =>
    intro l h
    simp [jsFilter] at h
    subst h
    simp
  | cons a as ih =>
    intro l h
    rw [jsFilter] at h
    cases hpa : p a with
    | none => rw [hpa] at h; exact absurd h (by simp)
    | some b =>
      rw [hpa] at h
      cases hrec : jsFilter p as with
      | none => rw [hrec] at h; exact absurd h (by simp)
      | some rest =>
        rw [hrec] at h
        have hr := ih rest hrec
        have hl : l = if b then a :: rest else rest := by
          cases h; rfl
        rw [hl, List.filter_cons, hr]
        cases b <;> simp [hpa]

theorem jsFilter_isSome {α : Type} (p : α → Option Bool) (L : List α)
    (h : ∀ a ∈ L, (p a).isSome) : (jsFilter p L).isSome := by
  induction L with
  | nil => simp [jsFilter]
  | cons a as ih =>
    have ha : (p a).isSome := h a (by simp)
    have has : (jsFilter p as).isSome := ih (fun x hx => h x (by simp [hx]))
    cases hpa : p a with
    | none => rw [hpa] at ha; simp at ha
    | some b =>
      cases hrec : jsFilter p as with
      | none => rw [hrec] at has; simp at has
      | some rest => rw [jsFilter, hpa, hrec]; simp

theorem jsFilter_mem_true {α : Type} (p : α → Option Bool) (L l : List α)
    (h : jsFilter p L = some l) : ∀ a ∈ l, p a = some true := by
  intro a ha
  have he := jsFilter_eq_filter p L l h
  subst he
  have hq := List.of_mem_filter ha
  cases hpa : p a with
  | none => rw [hpa] at hq; simp at hq
  | some b => rw [hpa] at hq; simp at hq; rw [hq]

theorem jsFilter_all_true {α : Type} (p : α → Option Bool) (L : List α)
    (h : ∀ a ∈ L, p a = some true) : jsFilter p L = some L := by
  induction L with
  | nil => simp [jsFilter]
  | cons a as ih =>
    have hpa := h a (by simp)
    have hrec := ih (fun x hx => h x (by simp [hx]))
    rw [jsFilter, hpa, hrec]
    simp

theorem matchesOpt_isSome (term : String) (t : Team) (h : t.strTeam.isSome) :
    (matchesOpt term t).isSome := by
  cases ht : t.strTeam with
  | none => rw [ht] at h; simp at h
  | some name => simp [matchesOpt, ht]

theorem filterCore_isSome (L : List Team) (s : String)
    (h : ∀ t ∈ L, t.strTeam.isSome) : (filterCore L s).isSome := by
  rw [filterCore]
  by_cases hterm : normalizeTerm s = ""
  · simp [hterm]
  · simp only [hterm, if_neg, ite_false]
    exact jsFilter_isSome _ L (fun t ht => matchesOpt_isSome _ t (h t ht))

theorem loadTeams_filterInvariant (country : String) (f : Except Unit (List Team))
    (st : AppState) (h : filterInvariant st) :
    filterInvariant (loadTeams country f st) := by
  rw [loadTeams]
  by_cases hc : country = ""
  · simpa [hc]
  · cases f with
    | ok L =>
      simp [hc, filterInvariant, showLoading, updateCountryTitle, displayTeams,
        updateCounters, showNotification, hidePlayersSection]
    | error e =>
      simpa [hc, filterInvariant, showLoading, updateCountryTitle, displayTeams,
        showNotification] using h

theorem filterTeams_filterInvariant (text : String) (st st' : AppState)
    (h : filterTeams text st = some st') : filterInvariant st' := by
  rw [filterTeams] at h
  cases hc : filterCore st.teams text with
  | none => rw [hc] at h; simp at h
  | some l =>
    rw [hc] at h
    simp only [Option.some.injEq] at h
    subst h
    rw [filterCore] at hc
    by_cases hterm : normalizeTerm text = ""
    · simp only [hterm, if_pos, ite_true, Option.some.injEq] at hc
      subst hc
      simp [filterInvariant, displayTeams, updateCounters, hterm]
    · simp only [hterm, if_neg, ite_false] at hc
      have he := jsFilter_eq_filter _ st.teams l hc
      have hcm : codeMatches (normalizeTerm text)
          = fun a => (matchesOpt (normalizeTerm text) a).getD false := rfl
      simp [filterInvariant, displayTeams, updateCounters, hterm, hcm, he]

theorem runOps_filterInvariant : ∀ (ops : List TMOp) (st st' : AppState),
    filterInvariant st → runOps ops st = some st' → filterInvariant st' := by
  intro ops
  induction ops with
  | nil =>
    intro st st' h hr
    rw [runOps] at hr
    cases hr
    exact h
  | cons op rest ih =>
    intro st st' h hr
    cases op with
    | load c f =>
      rw [runOps] at hr
      exact ih _ st' (loadTeams_filterInvariant c f st h) hr
    | filt t =>
      rw [runOps] at hr
      cases hft : filterTeams t st with
      | none => rw [hft] at hr; simp at hr
      | some stm =>
        rw [hft] at hr
        exact ih stm st' (filterTeams_filterInvariant t st stm hft) hr

/-- C1 (amended): after any error-free sequence of `loadTeams` and
`filterTeams` operations from the initial state, `filteredTeams` is
exactly the subsequence of `teams` selected by the source predicate —
name, league, or stadium (`strStadium`, not the stadium-location field)
case-insensitively containing the stored trimmed, case-folded filter
text — with the empty filter giving the identity. -/
theorem loadAndFilter_view_invariant (ops : List TMOp) (st' : AppState)
    (h : runOps ops initialState = some st') : filterInvariant st' :=
  runOps_filterInvariant ops initialState st'
    (by simp [filterInvariant, initialState]) h

/-- Witness for C1: the Spain scenario — load "Real Betis" and
"Sevilla FC", then filter by "sevilla" — ends in a state satisfying the
invariant whose filtered view is exactly the "Sevilla FC" team. -/
theorem loadAndFilter_view_invariant_witness :
    runOps demoOps initialState = some demoRunState
    ∧ filterInvariant demoRunState
    ∧ demoRunState.filteredTeams = [sevillaFC] :=
  ⟨rfl, loadAndFilter_view_invariant demoOps demoRunState rfl, rfl⟩

/-- Counterexample for C1 as stated: after loading one team whose
`strStadiumLocation` contains "sevilla" while its name, league and
`strStadium` do not, `filterTeams "sevilla"` produces an empty filtered
view even though the claim's own predicate (which names the stadium
location) matches the team. -/
theorem stadiumLocation_not_matched_cex :
    (filterTeams "sevilla" (loadTeams "Spain" (Except.ok [locationOnlyTeam])
        initialState)).map (fun st => st.filteredTeams) = some []
    ∧ specClaimMatches "sevilla" locationOnlyTeam = true :=
  ⟨rfl, rfl⟩

/-- C2 (amended): for every non-empty country, a failed teams fetch makes
`loadTeams` queue exactly one error notification, clear the loading
indicator, render an empty team list, and return normally (the operation
is total, so no exception escapes); however it leaves `allTeams` and the
stored filtered list at their previous values rather than emptying them. -/
theorem loadTeams_failure_soft (country : String) (st : AppState)
    (h : country ≠ "") :
    (loadTeams country (Except.error ()) st).teams = st.teams
    ∧ (loadTeams country (Except.error ()) st).filteredTeams = st.filteredTeams
    ∧ (loadTeams country (Except.error ()) st).displayedTeams = []
    ∧ (loadTeams country (Except.error ()) st).loadingShown = false
    ∧ (loadTeams country (Except.error ()) st).notifications
        = st.notifications ++ [⟨"Error al cargar los equipos", NotifType.error⟩] := by
  simp [loadTeams, h, showLoading, updateCountryTitle, showNotification, displayTeams]

/-- Witness for C2 at country "Spain" from the initial state. -/
theorem loadTeams_failure_soft_witness :
    (loadTeams "Spain" (Except.error ()) initialState).teams = initialState.teams
    ∧ (loadTeams "Spain" (Except.error ()) initialState).filteredTeams
        = initialState.filteredTeams
    ∧ (loadTeams "Spain" (Except.error ()) initialState).displayedTeams = []
    ∧ (loadTeams "Spain" (Except.error ()) initialState).loadingShown = false
    ∧ (loadTeams "Spain" (Except.error ()) initialState).notifications
        = initialState.notifications
            ++ [⟨"Error al cargar los equipos", NotifType.error⟩] :=
  loadTeams_failure_soft "Spain" initialState (by decide)

/-- Counterexample for C2 as stated: after Spain's two teams are loaded, a
failing reload keeps both teams in `allTeams` instead of setting it to
empty. -/
theorem loadTeams_failure_keeps_teams_cex :
    (loadTeams "Spain" (Except.error ()) loadedSpainState).teams = [betis, sevillaFC]
    ∧ [betis, sevillaFC] ≠ ([] : List Team) :=
  ⟨rfl, by decide⟩

/-- C3 (amended): for a non-empty country a successful `loadTeams` resets
the filter text to empty and hides the roster UI section, but leaves the
roster state (`currentPlayers` and `currentTeam`) untouched; a failed
`loadTeams` leaves the filter text and the roster state unchanged; for the
empty country the call is a no-op. -/
theorem loadTeams_reset_behavior (country : String) (st : AppState)
    (L : List Team) (f : Except Unit (List Team)) (h : country ≠ "") :
    ((loadTeams country (Except.ok L) st).searchTerm = ""
      ∧ (loadTeams country (Except.ok L) st).playersSectionVisible = false
      ∧ (loadTeams country (Except.ok L) st).teamInfoVisible = false
      ∧ (loadTeams country (Except.ok L) st).currentPlayers = st.currentPlayers
      ∧ (loadTeams country (Except.ok L) st).currentTeam = st.currentTeam)
    ∧ ((loadTeams country (Except.error ()) st).searchTerm = st.searchTerm
      ∧ (loadTeams country (Except.error ()) st).currentPlayers = st.currentPlayers
      ∧ (loadTeams country (Except.error ()) st).currentTeam = st.currentTeam)
    ∧ loadTeams "" f st = st := by
  refine ⟨?_, ?_, ?_⟩
  · simp [loadTeams, h, showLoading, updateCountryTitle, displayTeams,
      updateCounters, showNotification, hidePlayersSection]
  · simp [loadTeams, h, showLoading, updateCountryTitle, displayTeams,
      showNotification]
  · simp [loadTeams]

/-- Witness for C3 at country "Spain" from a state with an open roster. -/
theorem loadTeams_reset_behavior_witness :
    ((loadTeams "Spain" (Except.ok []) rosterOpenState).searchTerm = ""
      ∧ (loadTeams "Spain" (Except.ok []) rosterOpenState).playersSectionVisible = false
      ∧ (loadTeams "Spain" (Except.ok []) rosterOpenState).teamInfoVisible = false
      ∧ (loadTeams "Spain" (Except.ok []) rosterOpenState).currentPlayers
          = rosterOpenState.currentPlayers
      ∧ (loadTeams "Spain" (Except.ok []) rosterOpenState).currentTeam
          = rosterOpenState.currentTeam)
    ∧ ((loadTeams "Spain" (Except.error ()) rosterOpenState).searchTerm
          = rosterOpenState.searchTerm
      ∧ (loadTeams "Spain" (Except.error ()) rosterOpenState).currentPlayers
          = rosterOpenState.currentPlayers
      ∧ (loadTeams "Spain" (Except.error ()) rosterOpenState).currentTeam
          = rosterOpenState.currentTeam)
    ∧ loadTeams "" (Except.ok []) rosterOpenState = rosterOpenState :=
  loadTeams_reset_behavior "Spain" rosterOpenState [] (Except.ok []) (by decide)

/-- Counterexample for C3 as stated: with a roster open, even a successful
`loadTeams` leaves `currentPlayers` and `currentTeam` non-empty — only the
UI section is hidden, the roster state is not cleared. -/
theorem loadTeams_keeps_roster_cex :
    (loadTeams "Spain" (Except.ok [betis, sevillaFC]) rosterOpenState).currentPlayers
      = [demoPlayer]
    ∧ (loadTeams "Spain" (Except.ok [betis, sevillaFC]) rosterOpenState).currentTeam
      = some ⟨"Alpha FC", "badge.png", "League A"⟩
    ∧ [demoPlayer] ≠ ([] : List Player) :=
  ⟨rfl, rfl, by decide⟩

/-- C4 (amended): `loadPlayers` is a no-op on an empty team id; on success
it replaces `currentPlayers` and `currentTeam` with the fetched data,
queues a success notification (also for an empty list, which shows the
empty-state indicator and no error notification) and clears the loading
overlay; on failure it queues an error notification and renders an empty
roster with the empty-state indicator, but `currentPlayers` and
`currentTeam` keep their previous values instead of being emptied. -/
theorem loadPlayers_behavior (teamId teamName teamBadge teamLeague : String)
    (ps : List Player) (st : AppState) (f : Except Unit (List Player))
    (h : teamId ≠ "") :
    loadPlayers "" teamName teamBadge teamLeague f st = st
    ∧ ((loadPlayers teamId teamName teamBadge teamLeague (Except.ok ps) st).currentPlayers
          = ps
      ∧ (loadPlayers teamId teamName teamBadge teamLeague (Except.ok ps) st).currentTeam
          = some ⟨teamName, teamBadge, teamLeague⟩
      ∧ (loadPlayers teamId teamName teamBadge teamLeague (Except.ok ps) st).notifications
          = st.notifications
              ++ [⟨toString ps.length ++ " jugadores cargados", NotifType.success⟩]
      ∧ (loadPlayers teamId teamName teamBadge teamLeague (Except.ok ps) st).loadingShown
          = false
      ∧ (ps = [] →
          (loadPlayers teamId teamName teamBadge teamLeague
            (Except.ok ps) st).emptyPlayersVisible = true))
    ∧ ((loadPlayers teamId teamName teamBadge teamLeague (Except.error ()) st).currentPlayers
          = st.currentPlayers
      ∧ (loadPlayers teamId teamName teamBadge teamLeague (Except.error ()) st).currentTeam
          = st.currentTeam
      ∧ (loadPlayers teamId teamName teamBadge teamLeague (Except.error ()) st).displayedPlayers
          = []
      ∧ (loadPlayers teamId teamName teamBadge teamLeague (Except.error ()) st).emptyPlayersVisible
          = true
      ∧ (loadPlayers teamId teamName teamBadge teamLeague (Except.error ()) st).notifications
          = st.notifications ++ [⟨"Error al cargar los jugadores", NotifType.error⟩]) := by
  refine ⟨by simp [loadPlayers], ?_, ?_⟩
  · by_cases hps : ps = []
    · subst hps
      simp [loadPlayers, h, showLoading, displayPlayers, showNotification]
    · simp [loadPlayers, h, showLoading, displayPlayers, showNotification, hps]
  · simp [loadPlayers, h, showLoading, displayPlayers, showNotification]

/-- Witness for C4: the empty-roster scenario `loadRoster("134301", ...)`
with an empty returned player array, from the initial state. -/
theorem loadPlayers_behavior_witness :
    loadPlayers "" "Alpha FC" "badge.png" "League A" (Except.ok []) initialState
      = initialState
    ∧ ((loadPlayers "134301" "Alpha FC" "badge.png" "League A"
          (Except.ok []) initialState).currentPlayers = []
      ∧ (loadPlayers "134301" "Alpha FC" "badge.png" "League A"
          (Except.ok []) initialState).currentTeam
          = some ⟨"Alpha FC", "badge.png", "League A"⟩
      ∧ (loadPlayers "134301" "Alpha FC" "badge.png" "League A"
          (Except.ok []) initialState).notifications
          = initialState.notifications
              ++ [⟨toString ([] : List Player).length ++ " jugadores cargados",
                    NotifType.success⟩]
      ∧ (loadPlayers "134301" "Alpha FC" "badge.png" "League A"
          (Except.ok []) initialState).loadingShown = false
      ∧ (([] : List Player) = [] →
          (loadPlayers "134301" "Alpha FC" "badge.png" "League A"
            (Except.ok []) initialState).emptyPlayersVisible = true))
    ∧ ((loadPlayers "134301" "Alpha FC" "badge.png" "League A"
          (Except.error ()) initialState).currentPlayers
          = initialState.currentPlayers
      ∧ (loadPlayers "134301" "Alpha FC" "badge.png" "League A"
          (Except.error ()) initialState).currentTeam = initialState.currentTeam
      ∧ (loadPlayers "134301" "Alpha FC" "badge.png" "League A"
          (Except.error ()) initialState).displayedPlayers = []
      ∧ (loadPlayers "134301" "Alpha FC" "badge.png" "League A"
          (Except.error ()) initialState).emptyPlayersVisible = true
      ∧ (loadPlayers "134301" "Alpha FC" "badge.png" "League A"
          (Except.error ()) initialState).notifications
          = initialState.notifications
              ++ [⟨"Error al cargar los jugadores", NotifType.error⟩]) :=
  loadPlayers_behavior "134301" "Alpha FC" "badge.png" "League A" []
    initialState (Except.ok []) (by decide)

/-- Counterexample for C4 as stated: from a state whose roster holds one
player, a failing fetch leaves that player in `currentPlayers` — the
failure does not yield an empty roster. -/
theorem loadPlayers_failure_keeps_roster_cex :
    (loadPlayers "134302" "Beta FC" "b.png" "League B"
        (Except.error ()) rosterOpenState).currentPlayers = [demoPlayer]
    ∧ [demoPlayer] ≠ ([] : List Player) :=
  ⟨rfl, by decide⟩

/-- C5 (amended): `switchView` always assigns the requested mode to
`currentView` — also when the filtered view is empty, so the call is not a
no-op then; the emptiness of the filtered view only suppresses the
re-render and the mode-button update, every other state component being
left unchanged. -/
theorem switchView_behavior (v : ViewType) (st : AppState) :
    (st.filteredTeams = [] → switchView v st = { st with currentView := v })
    ∧ (st.filteredTeams ≠ [] → switchView v st =
        { st with currentView := v
                  displayedTeams := st.filteredTeams
                  displayedView := v
                  viewButtons := some v }) := by
  constructor
  · intro h
    simp [switchView, h]
  · intro h
    have hl : 0 < st.filteredTeams.length := List.length_pos.mpr h
    simp [switchView, displayTeams, setViewButtons, hl]

/-- Witness for C5: switching to list mode on the initial (empty-view)
state only changes `currentView`. -/
theorem switchView_behavior_witness :
    switchView ViewType.list initialState
      = { initialState with currentView := ViewType.list } :=
  (switchView_behavior ViewType.list initialState).1 rfl

/-- Counterexample for C5 as stated: on the initial state the filtered
view is empty, yet `switchView 'list'` changes the state — it sets
`currentView` — so it is not a no-op. -/
theorem switchView_empty_sets_view_cex :
    switchView ViewType.list initialState ≠ initialState
    ∧ (switchView ViewType.list initialState).currentView = ViewType.list
    ∧ initialState.filteredTeams = [] :=
  ⟨by decide, rfl, rfl⟩

/-- C6: for every team list and filter string, a non-throwing filter run
returns a subsequence of the input list — each retained team occurs in the
input and the original relative order is preserved. -/
theorem filter_is_sublist (L : List Team) (s : String) (l : List Team)
    (h : filterCore L s = some l) : List.Sublist l L := by
  rw [filterCore] at h
  by_cases hterm : normalizeTerm s = ""
  · simp only [hterm, ite_true, Option.some.injEq] at h
    subst h
    exact List.Sublist.refl L
  · simp only [hterm, ite_false] at h
    have he := jsFilter_eq_filter _ L l h
    subst he
    exact List.filter_sublist L

/-- Witness for C6 on the Spain-scenario list with filter "sevilla". -/
theorem filter_is_sublist_witness :
    filterCore [betis, sevillaFC] "sevilla" = some [sevillaFC]
    ∧ List.Sublist [sevillaFC] [betis, sevillaFC] :=
  ⟨rfl, filter_is_sublist [betis, sevillaFC] "sevilla" [sevillaFC] rfl⟩

/-- C7: filtering with the empty string is the identity — the empty term
takes the copy branch, returning the list unchanged element for element. -/
theorem filter_empty_identity (L : List Team) : filterCore L "" = some L := by
  rw [filterCore]
  simp [normalizeTerm_empty]

/-- C8: filtering is idempotent — running the filter again with the same
string on its own output returns that output unchanged (and a throwing
run stays throwing). -/
theorem filter_idempotent (L : List Team) (s : String) :
    (filterCore L s).bind (fun l => filterCore l s) = filterCore L s := by
  cases hL : filterCore L s with
  | none => rfl
  | some l =>
    show filterCore l s = some l
    rw [filterCore] at hL ⊢
    by_cases hterm : normalizeTerm s = ""
    · simp [hterm]
    · simp only [hterm, ite_false] at hL ⊢
      exact jsFilter_all_true _ l (jsFilter_mem_true _ L l hL)

/-- C9: `hidePlayers` clears `currentPlayers` and `currentTeam`
unconditionally from any state and is idempotent — a second call leaves
the state exactly as after the first. -/
theorem closeRoster_clears_idempotent (st : AppState) :
    (hidePlayers st).currentPlayers = []
    ∧ (hidePlayers st).currentTeam = none
    ∧ hidePlayers (hidePlayers st) = hidePlayers st :=
  ⟨rfl, rfl, rfl⟩

/-- C10: on any state whose loaded teams all have a present `strTeam` —
league and stadium may be absent, such teams merely fail to match on the
absent field — `filterTeams` never throws, for every search string; and
the precondition on the name is required: a single team with an absent
name makes the filter throw. -/
theorem filterTeams_total_on_named :
    (∀ (st : AppState) (text : String),
      (∀ t ∈ st.teams, t.strTeam.isSome) → (filterTeams text st).isSome)
    ∧ (filterTeams "x" { initialState with teams := [namelessTeam] }).isNone := by
  constructor
  · intro st text h
    rw [filterTeams]
    cases hc : filterCore st.teams text with
    | none =>
      have hs := filterCore_isSome st.teams text h
      rw [hc] at hs
      simp at hs
    | some l => simp
  · rfl

/-- Witness for C10 on the loaded Spain state, whose two teams both carry
a name. -/
theorem filterTeams_total_on_named_witness :
    (∀ t ∈ loadedSpainState.teams, t.strTeam.isSome)
    ∧ (filterTeams "sevilla" loadedSpainState).isSome :=
  ⟨by decide, filterTeams_total_on_named.1 loadedSpainState "sevilla" (by decide)⟩
